import Mathlib

/-!
# ftracker: distance, mean speed and calories of a training session

A shallow embedding of `ftracker.go`, in two readings of its `float64` arithmetic.

* The exact reading: `float64` over exact rationals, Go's `int` over the integers.  A
  `float64` division by zero does not stop a Go program, it produces `±Inf` or `NaN`; no
  rational stands for such a value, so every division goes through `fdiv`, which has no
  result for a zero divisor, and the functions return an `Option`.  It serves the
  statements made over exact arithmetic and the statement on division by zero.
* The binary64 reading (`F64`, namespace `Binary64`): every operation rounded to the nearest
  `float64`, with overflow, infinities, NaN and signed zeros.  Its functions are total, as
  the program is, and `Binary64.ShowTrainingInfo` is the text the program returns.
-/

namespace Ftracker

/-! ## Constants -/

/-- Average length of a step, in metres. -/
def lenStep : ℚ := 0.65

/-- Metres in a kilometre. -/
def mInKm : ℚ := 1000

/-- Minutes in an hour. -/
def minInH : ℚ := 60

/-- Factor that turns km/h into m/s. -/
def kmhInMsec : ℚ := 0.278

/-- Centimetres in a metre. -/
def cmInM : ℚ := 100

/-- Multiplier of the mean speed in the running formula. -/
def runningCaloriesMeanSpeedMultiplier : ℚ := 18

/-- The constant the source names the mean speed shift of the running formula. -/
def runningCaloriesMeanSpeedShift : ℚ := 1.79

/-- Multiplier of the body weight in the walking formula. -/
def walkingCaloriesWeightMultiplier : ℚ := 0.035

/-- Multiplier of the height term in the walking formula. -/
def walkingSpeedHeightMultiplier : ℚ := 0.029

/-- Shift of the mean speed in the swimming formula. -/
def swimmingCaloriesMeanSpeedShift : ℚ := 1.1

/-- Multiplier of the weight in the swimming formula. -/
def swimmingCaloriesWeightMultiplier : ℚ := 2

/-! ## Arithmetic -/

/-- Division of two `float64` values read exactly: a zero divisor has no finite quotient
(Go yields `±Inf` or `NaN` there), which is `none`. -/
def fdiv (x y : ℚ) : Option ℚ :=
  if y = 0 then none else some (x / y)

/-- Source `distance`: `float64(action) * lenStep / mInKm`. -/
def distance (action : ℤ) : Option ℚ :=
  fdiv ((action : ℚ) * lenStep) mInKm

/-- Source `meanSpeed`: zero for a zero duration, otherwise the distance over the duration. -/
def meanSpeed (action : ℤ) (duration : ℚ) : Option ℚ :=
  if duration = 0 then
    pure 0
  else do
    let distance ← distance action
    fdiv distance duration

/-- Source `RunningSpentCalories`:
`(multiplier * meanSpeed(action, duration) * shift) * weight / mInKm * duration * minInH`. -/
def RunningSpentCalories (action : ℤ) (weight duration : ℚ) : Option ℚ := do
  let speed ← meanSpeed action duration
  let perKm ←
    fdiv ((runningCaloriesMeanSpeedMultiplier * speed * runningCaloriesMeanSpeedShift) * weight)
      mInKm
  pure (perKm * duration * minInH)

/-- Source `WalkingSpentCalories`; `math.Pow(meanSpeedMS, 2)` is the square. -/
def WalkingSpentCalories (action : ℤ) (duration weight height : ℚ) : Option ℚ := do
  let meanSpeedMS := (← meanSpeed action duration) * kmhInMsec
  let heightM ← fdiv height cmInM
  let ratio ← fdiv (meanSpeedMS ^ 2) heightM
  pure ((walkingCaloriesWeightMultiplier * weight +
    ratio * walkingSpeedHeightMultiplier * weight) * duration * minInH)

/-- Source `swimmingMeanSpeed`: zero for a zero duration, otherwise
`float64(lengthPool) * float64(countPool) / mInKm / duration`. -/
def swimmingMeanSpeed (lengthPool countPool : ℤ) (duration : ℚ) : Option ℚ :=
  if duration = 0 then
    pure 0
  else do
    let km ← fdiv ((lengthPool : ℚ) * (countPool : ℚ)) mInKm
    fdiv km duration

/-- Source `SwimmingSpentCalories`, parameters in the order of the source:
`lengthPool, countPool, duration, weight`. -/
def SwimmingSpentCalories (lengthPool countPool : ℤ) (duration weight : ℚ) : Option ℚ := do
  let speed ← swimmingMeanSpeed lengthPool countPool duration
  pure ((speed + swimmingCaloriesMeanSpeedShift) * swimmingCaloriesWeightMultiplier *
    weight * duration)

/-! ## Formatting -/

/-- An operand of `fmt.Sprintf`: the program passes one string and four `float64`. -/
inductive Arg where
  | str (s : String)
  | float (x : ℚ)

/-- Nearest integer of an exact value, a tie going to the even neighbour: the rounding
`strconv` applies to the decimal expansion of a `float64`. -/
def roundHalfEven (x : ℚ) : ℤ :=
  let f := ⌊x⌋
  let r := x - f
  if r < 1 / 2 then f
  else if 1 / 2 < r then f + 1
  else if f % 2 = 0 then f else f + 1

/-- Two decimal digits of a number below one hundred. -/
def pad2 (n : ℕ) : String :=
  if n < 10 then "0" ++ toString n else toString n

/-- The verb `%.2f` on a finite value: sign, integer part, a point and two decimals. -/
def formatFloat2 (x : ℚ) : String :=
  let n := (roundHalfEven (|x| * 100)).toNat
  (if x < 0 then "-" else "") ++ toString (n / 100) ++ "." ++ pad2 (n % 100)

/-- The part of `fmt.Sprintf` the program uses: the verbs `%s` (with a string operand) and
`%.2f` (with a `float64` operand); every other character is copied. -/
def sprintfChars : List Char → List Arg → List Char
  | '%' :: 's' :: rest, Arg.str s :: args => s.toList ++ sprintfChars rest args
  | '%' :: '.' :: '2' :: 'f' :: rest, Arg.float x :: args =>
    (formatFloat2 x).toList ++ sprintfChars rest args
  | c :: rest, args => c :: sprintfChars rest args
  | [], _ => []

/-- The call `fmt.Sprintf(format, args...)`. -/
def Sprintf (format : String) (args : List Arg) : String :=
  String.mk (sprintfChars format.toList args)

/-- The constant `resultMessage` of `ShowTrainingInfo`, a raw string literal: the lines after
the first carry the eight blanks of the source's indentation, and eight more follow the
last newline. -/
def resultMessage : String :=
  "Тип тренировки: %s\n        Длительность: %.2f ч.\n        Дистанция: %.2f км.\n        Скорость: %.2f км/ч.\n        Потрачено энергии: %.2f ккал.\n        "

/-- Source `ShowTrainingInfo` in the exact reading.  The swimming case passes `weight` and
`duration` to `SwimmingSpentCalories` in the order the source passes them.  The result is
`none` where a reported value is not finite (walking with a zero height); the program still
returns a text there, which `Binary64.ShowTrainingInfo` gives. -/
def ShowTrainingInfo (action : ℤ) (trainingType : String) (duration weight height : ℚ)
    (lengthPool countPool : ℤ) : Option String := do
  let mut trainingDistance : ℚ := 0
  let mut trainingSpeed : ℚ := 0
  let mut spentCalories : ℚ := 0
  if trainingType = "Бег" then
    trainingDistance ← distance action
    trainingSpeed ← meanSpeed action duration
    spentCalories ← RunningSpentCalories action weight duration
  else if trainingType = "Ходьба" then
    trainingDistance ← distance action
    trainingSpeed ← meanSpeed action duration
    spentCalories ← WalkingSpentCalories action duration weight height
  else if trainingType = "Плавание" then
    trainingDistance ← distance action
    trainingSpeed ← swimmingMeanSpeed lengthPool countPool duration
    spentCalories ← SwimmingSpentCalories lengthPool countPool weight duration
  else
    return "неизвестный тип тренировки"
  return Sprintf resultMessage
    [.str trainingType, .float duration, .float trainingDistance, .float trainingSpeed,
      .float spentCalories]

/-- The template as the specification prints it: every label starts its line and nothing
follows the last newline. -/
def specResultMessage : String :=
  "Тип тренировки: %s\nДлительность: %.2f ч.\nДистанция: %.2f км.\nСкорость: %.2f км/ч.\nПотрачено энергии: %.2f ккал.\n"

/-! ## The binary64 reading

The same program with `float64` as the processor computes it: every operation rounds its
exact result to the nearest binary64 value (ties to even), overflows to an infinity, and
division by zero yields an infinity or NaN.  Operations are rounded one by one, in source
order (no fused multiply-add). -/

/-- A `float64` value: a finite value given by its sign bit and its exact magnitude, an
infinity with its sign bit, or NaN.  The operations below produce magnitudes on the binary64
grid; a statement over every `F64` covers every `float64`. -/
inductive F64 where
  | fin (neg : Bool) (mag : ℚ)
  | inf (neg : Bool)
  | nan
  deriving DecidableEq

/-- Two to the power `k`. -/
def twoPow (k : ℤ) : ℚ :=
  if 0 ≤ k then ((2 ^ k.toNat : ℕ) : ℚ) else 1 / ((2 ^ (-k).toNat : ℕ) : ℚ)

/-- Number of halvings that bring `n` below 2, the position of its leading bit. -/
def log2Fuel : ℕ → ℕ → ℕ
  | 0, _ => 0
  | fuel + 1, n => if n < 2 then 0 else log2Fuel fuel (n / 2) + 1

/-- Binary exponent of a positive rational `q`: the `e` with `2^e ≤ q < 2^(e+1)`. -/
def binaryExponent (q : ℚ) : ℤ :=
  let a := (log2Fuel q.num.natAbs q.num.natAbs : ℤ) - (log2Fuel q.den q.den : ℤ)
  if twoPow a ≤ q then a else a - 1

/-- Rounding of an exact magnitude `q ≥ 0` to precision `53` without a bound on the
exponent: nearest multiple of `2^(e-52)`, ties to even. -/
def roundPrecision53 (q : ℚ) : ℚ :=
  if q = 0 then 0
  else
    let quantum := twoPow (binaryExponent q - 52)
    (roundHalfEven (q / quantum) : ℚ) * quantum

/-- Rounding of an exact magnitude `q ≥ 0` to binary64: 53 significant bits, a spacing never
below `2^-1074` (subnormal values), ties to even; `none` when the rounded magnitude reaches
`2^1024` (overflow). -/
def roundMagnitude (q : ℚ) : Option ℚ :=
  if q = 0 then some 0
  else
    let quantum := twoPow (max (binaryExponent q - 52) (-1074))
    let r := (roundHalfEven (q / quantum) : ℚ) * quantum
    if r < twoPow 1024 then some r else none

namespace F64

/-- The binary64 value of a sign and an exact magnitude. -/
def ofSignMag (neg : Bool) (q : ℚ) : F64 :=
  match roundMagnitude q with
  | some r => fin neg r
  | none => inf neg

/-- Conversion of an exact number (a constant of the source) to `float64`. -/
def ofRat (q : ℚ) : F64 :=
  ofSignMag (decide (q < 0)) |q|

/-- The conversion `float64(n)` of an `int`. -/
def ofInt (n : ℤ) : F64 :=
  ofRat (n : ℚ)

/-- The signed exact value of a sign bit and a magnitude. -/
def signed (neg : Bool) (mag : ℚ) : ℚ :=
  if neg then -mag else mag

/-- The comparison `x == 0`: true of both zeros, false of NaN. -/
def eqZero : F64 → Bool
  | fin _ mag => decide (mag = 0)
  | _ => false

/-- The operator `*` of `float64`. -/
def mul : F64 → F64 → F64
  | nan, _ => nan
  | _, nan => nan
  | inf s, inf t => inf (xor s t)
  | inf s, fin t b => if b = 0 then nan else inf (xor s t)
  | fin s a, inf t => if a = 0 then nan else inf (xor s t)
  | fin s a, fin t b => ofSignMag (xor s t) (a * b)

/-- The operator `/` of `float64`. -/
def div : F64 → F64 → F64
  | nan, _ => nan
  | _, nan => nan
  | inf _, inf _ => nan
  | inf s, fin t _ => inf (xor s t)
  | fin s _, inf t => fin (xor s t) 0
  | fin s a, fin t b =>
    if b = 0 then (if a = 0 then nan else inf (xor s t))
    else ofSignMag (xor s t) (a / b)

/-- The operator `+` of `float64`. -/
def add : F64 → F64 → F64
  | nan, _ => nan
  | _, nan => nan
  | inf s, inf t => if s = t then inf s else nan
  | inf s, fin _ _ => inf s
  | fin _ _, inf t => inf t
  | fin s a, fin t b =>
    let x := signed s a + signed t b
    if x = 0 then fin (s && t) 0 else ofSignMag (decide (x < 0)) |x|

/-- The call `math.Pow(x, 2)`: NaN for NaN, `+Inf` for an infinity, `+0` for a zero, and for
another finite `x` the product of the mantissa with itself rounded to 53 bits, then scaled
back by `math.Ldexp`, which rounds to binary64. -/
def powTwo : F64 → F64
  | nan => nan
  | inf _ => inf false
  | fin _ a => if a = 0 then fin false 0 else ofSignMag false (roundPrecision53 (a * a))

/-- The comparison `x < y` of `float64`. -/
def lt : F64 → F64 → Bool
  | fin s a, fin t b => decide (signed s a < signed t b)
  | fin _ _, inf t => !t
  | inf s, fin _ _ => s
  | inf s, inf t => s && !t
  | _, _ => false

/-- The comparison `x <= y` of `float64`. -/
def le : F64 → F64 → Bool
  | fin s a, fin t b => decide (signed s a ≤ signed t b)
  | fin _ _, inf t => !t
  | inf s, fin _ _ => s
  | inf s, inf t => s || !t
  | _, _ => false

/-- The verb `%.2f` of `fmt`: `+Inf`, `-Inf` and `NaN` for the values that are not finite,
otherwise the sign, the integer part, a point and two decimals, the exact value rounded to
the nearest hundredth with ties to even. -/
def format2 : F64 → String
  | nan => "NaN"
  | inf false => "+Inf"
  | inf true => "-Inf"
  | fin neg mag =>
    let n := (roundHalfEven (mag * 100)).toNat
    (if neg then "-" else "") ++ toString (n / 100) ++ "." ++ pad2 (n % 100)

instance : Mul F64 := ⟨mul⟩

instance : Div F64 := ⟨div⟩

instance : Add F64 := ⟨add⟩

end F64

namespace Binary64

/-- Source `distance` in binary64. -/
def distance (action : ℤ) : F64 :=
  F64.ofInt action * F64.ofRat lenStep / F64.ofRat mInKm

/-- Source `meanSpeed` in binary64. -/
def meanSpeed (action : ℤ) (duration : F64) : F64 :=
  if duration.eqZero then
    F64.ofRat 0
  else
    let distance := distance action
    distance / duration

/-- Source `RunningSpentCalories` in binary64. -/
def RunningSpentCalories (action : ℤ) (weight duration : F64) : F64 :=
  (F64.ofRat runningCaloriesMeanSpeedMultiplier * meanSpeed action duration *
    F64.ofRat runningCaloriesMeanSpeedShift) * weight / F64.ofRat mInKm * duration *
    F64.ofRat minInH

/-- Source `WalkingSpentCalories` in binary64. -/
def WalkingSpentCalories (action : ℤ) (duration weight height : F64) : F64 :=
  let meanSpeedMS := meanSpeed action duration * F64.ofRat kmhInMsec
  let heightM := height / F64.ofRat cmInM
  (F64.ofRat walkingCaloriesWeightMultiplier * weight +
    (F64.powTwo meanSpeedMS / heightM) * F64.ofRat walkingSpeedHeightMultiplier * weight) *
    duration * F64.ofRat minInH

/-- Source `swimmingMeanSpeed` in binary64. -/
def swimmingMeanSpeed (lengthPool countPool : ℤ) (duration : F64) : F64 :=
  if duration.eqZero then
    F64.ofRat 0
  else
    F64.ofInt lengthPool * F64.ofInt countPool / F64.ofRat mInKm / duration

/-- Source `SwimmingSpentCalories` in binary64, parameters in the order of the source:
`lengthPool, countPool, duration, weight`. -/
def SwimmingSpentCalories (lengthPool countPool : ℤ) (duration weight : F64) : F64 :=
  (swimmingMeanSpeed lengthPool countPool duration + F64.ofRat swimmingCaloriesMeanSpeedShift) *
    F64.ofRat swimmingCaloriesWeightMultiplier * weight * duration

/-- An operand of `fmt.Sprintf`: a string or a `float64`. -/
inductive Arg where
  | str (s : String)
  | float (x : F64)

/-- The part of `fmt.Sprintf` the program uses: the verbs `%s` and `%.2f`; every other
character is copied. -/
def sprintfChars : List Char → List Arg → List Char
  | '%' :: 's' :: rest, Arg.str s :: args => s.toList ++ sprintfChars rest args
  | '%' :: '.' :: '2' :: 'f' :: rest, Arg.float x :: args =>
    x.format2.toList ++ sprintfChars rest args
  | c :: rest, args => c :: sprintfChars rest args
  | [], _ => []

/-- The call `fmt.Sprintf(format, args...)`. -/
def Sprintf (format : String) (args : List Arg) : String :=
  String.mk (sprintfChars format.toList args)

/-- Source `ShowTrainingInfo` in binary64: a string for every input.  The swimming case
passes `weight` and `duration` to `SwimmingSpentCalories` in the order the source passes
them. -/
def ShowTrainingInfo (action : ℤ) (trainingType : String) (duration weight height : F64)
    (lengthPool countPool : ℤ) : String := Id.run do
  let mut trainingDistance : F64 := F64.ofRat 0
  let mut trainingSpeed : F64 := F64.ofRat 0
  let mut spentCalories : F64 := F64.ofRat 0
  if trainingType = "Бег" then
    trainingDistance := distance action
    trainingSpeed := meanSpeed action duration
    spentCalories := RunningSpentCalories action weight duration
  else if trainingType = "Ходьба" then
    trainingDistance := distance action
    trainingSpeed := meanSpeed action duration
    spentCalories := WalkingSpentCalories action duration weight height
  else if trainingType = "Плавание" then
    trainingDistance := distance action
    trainingSpeed := swimmingMeanSpeed lengthPool countPool duration
    spentCalories := SwimmingSpentCalories lengthPool countPool weight duration
  else
    return "неизвестный тип тренировки"
  return Sprintf resultMessage
    [.str trainingType, .float duration, .float trainingDistance, .float trainingSpeed,
      .float spentCalories]

end Binary64

/-! ## Closed forms of the functions -/

theorem fdiv_of_ne (x : ℚ) {y : ℚ} (hy : y ≠ 0) : fdiv x y = some (x / y) := by
  simp [fdiv, hy]

theorem distance_eq (action : ℤ) : distance action = some ((action : ℚ) * 0.65 / 1000) := by
  simp [distance, fdiv, lenStep, mInKm]

theorem meanSpeed_zero (action : ℤ) : meanSpeed action 0 = some 0 := by
  simp [meanSpeed]

theorem meanSpeed_of_ne (action : ℤ) {duration : ℚ} (hd : duration ≠ 0) :
    meanSpeed action duration = some ((action : ℚ) * 0.65 / 1000 / duration) := by
  simp [meanSpeed, distance_eq, fdiv, hd]

theorem swimmingMeanSpeed_zero (lengthPool countPool : ℤ) :
    swimmingMeanSpeed lengthPool countPool 0 = some 0 := by
  simp [swimmingMeanSpeed]

theorem swimmingMeanSpeed_of_ne (lengthPool countPool : ℤ) {duration : ℚ} (hd : duration ≠ 0) :
    swimmingMeanSpeed lengthPool countPool duration =
      some ((lengthPool : ℚ) * (countPool : ℚ) / 1000 / duration) := by
  simp [swimmingMeanSpeed, fdiv, hd, mInKm]

theorem RunningSpentCalories_of_speed (action : ℤ) (weight duration speed : ℚ)
    (hs : meanSpeed action duration = some speed) :
    RunningSpentCalories action weight duration =
      some ((18 * speed * 1.79) * weight / 1000 * duration * 60) := by
  simp [RunningSpentCalories, hs, fdiv, mInKm, minInH, runningCaloriesMeanSpeedMultiplier,
    runningCaloriesMeanSpeedShift]

theorem WalkingSpentCalories_of_speed (action : ℤ) (duration weight height speed : ℚ)
    (hh : height ≠ 0) (hs : meanSpeed action duration = some speed) :
    WalkingSpentCalories action duration weight height =
      some ((0.035 * weight + ((speed * 0.278) ^ 2 / (height / 100)) * 0.029 * weight) *
        duration * 60) := by
  simp [WalkingSpentCalories, hs, fdiv, hh, cmInM, minInH, kmhInMsec,
    walkingCaloriesWeightMultiplier, walkingSpeedHeightMultiplier]

theorem SwimmingSpentCalories_of_speed (lengthPool countPool : ℤ) (duration weight speed : ℚ)
    (hs : swimmingMeanSpeed lengthPool countPool duration = some speed) :
    SwimmingSpentCalories lengthPool countPool duration weight =
      some ((speed + 1.1) * 2 * weight * duration) := by
  simp [SwimmingSpentCalories, hs, swimmingCaloriesMeanSpeedShift,
    swimmingCaloriesWeightMultiplier]

/-! ## Formatting lemmas -/

theorem roundHalfEven_of_near (x : ℚ) (n : ℤ) (h1 : (n : ℚ) - 1 / 2 < x)
    (h2 : x < (n : ℚ) + 1 / 2) : roundHalfEven x = n := by
  unfold roundHalfEven
  by_cases hx : (n : ℚ) ≤ x
  · have hf : ⌊x⌋ = n := by
      rw [Int.floor_eq_iff]
      constructor
      · exact hx
      · linarith
    simp only [hf]
    rw [if_pos (by linarith)]
  · have hf : ⌊x⌋ = n - 1 := by
      rw [Int.floor_eq_iff]
      push_cast
      constructor <;> linarith
    simp only [hf]
    push_cast
    rw [if_neg (by linarith), if_pos (by linarith)]
    ring

theorem formatFloat2_of_near (x : ℚ) (n : ℕ) (hx : 0 ≤ x) (h1 : (n : ℚ) - 1 / 2 < x * 100)
    (h2 : x * 100 < (n : ℚ) + 1 / 2) :
    formatFloat2 x = toString (n / 100) ++ "." ++ pad2 (n % 100) := by
  have hr : roundHalfEven (|x| * 100) = (n : ℤ) := by
    apply roundHalfEven_of_near
    · rw [abs_of_nonneg hx]; exact_mod_cast h1
    · rw [abs_of_nonneg hx]; exact_mod_cast h2
  simp [formatFloat2, hr, not_lt.mpr hx]

theorem formatFloat2_one : formatFloat2 1 = "1.00" := by
  rw [formatFloat2_of_near 1 100 (by norm_num) (by norm_num) (by norm_num)]
  decide

theorem formatFloat2_zero : formatFloat2 0 = "0.00" := by
  rw [formatFloat2_of_near 0 0 (by norm_num) (by norm_num) (by norm_num)]
  decide

theorem Sprintf_resultMessage (t : String) (d x s c : ℚ) :
    Sprintf resultMessage [.str t, .float d, .float x, .float s, .float c] =
      "Тип тренировки: " ++ t ++ "\n        Длительность: " ++ formatFloat2 d ++
        " ч.\n        Дистанция: " ++ formatFloat2 x ++ " км.\n        Скорость: " ++
        formatFloat2 s ++ " км/ч.\n        Потрачено энергии: " ++ formatFloat2 c ++
        " ккал.\n        " := by
  apply String.ext
  simp [Sprintf, resultMessage, sprintfChars]

theorem Sprintf_specResultMessage (t : String) (d x s c : ℚ) :
    Sprintf specResultMessage [.str t, .float d, .float x, .float s, .float c] =
      "Тип тренировки: " ++ t ++ "\nДлительность: " ++ formatFloat2 d ++
        " ч.\nДистанция: " ++ formatFloat2 x ++ " км.\nСкорость: " ++
        formatFloat2 s ++ " км/ч.\nПотрачено энергии: " ++ formatFloat2 c ++
        " ккал.\n" := by
  apply String.ext
  simp [Sprintf, specResultMessage, sprintfChars]

theorem meanSpeed_total (action : ℤ) (duration : ℚ) :
    ∃ s, meanSpeed action duration = some s ∧ (0 ≤ action → 0 ≤ duration → 0 ≤ s) ∧
      (0 < action → 0 < duration → 0 < s) := by
  by_cases hd : duration = 0
  · subst hd
    exact ⟨0, meanSpeed_zero action, fun _ _ => le_refl 0, fun _ h => absurd h (lt_irrefl 0)⟩
  · refine ⟨_, meanSpeed_of_ne action hd, fun ha hd0 => ?_, fun ha hd0 => ?_⟩
    · have : (0 : ℚ) ≤ (action : ℚ) := by exact_mod_cast ha
      positivity
    · have : (0 : ℚ) < (action : ℚ) := by exact_mod_cast ha
      positivity

theorem swimmingMeanSpeed_total (lengthPool countPool : ℤ) (duration : ℚ) :
    ∃ s, swimmingMeanSpeed lengthPool countPool duration = some s ∧
      (0 ≤ lengthPool → 0 ≤ countPool → 0 ≤ duration → 0 ≤ s) := by
  by_cases hd : duration = 0
  · subst hd
    exact ⟨0, swimmingMeanSpeed_zero lengthPool countPool, fun _ _ _ => le_refl 0⟩
  · refine ⟨_, swimmingMeanSpeed_of_ne lengthPool countPool hd, fun hl hc hd0 => ?_⟩
    have h1 : (0 : ℚ) ≤ (lengthPool : ℚ) := by exact_mod_cast hl
    have h2 : (0 : ℚ) ≤ (countPool : ℚ) := by exact_mod_cast hc
    positivity

theorem ShowTrainingInfo_running (action : ℤ) (duration weight height : ℚ)
    (lengthPool countPool : ℤ) {x s k : ℚ} (hx : distance action = some x)
    (hs : meanSpeed action duration = some s)
    (hk : RunningSpentCalories action weight duration = some k) :
    ShowTrainingInfo action "Бег" duration weight height lengthPool countPool =
      some (Sprintf resultMessage
        [.str "Бег", .float duration, .float x, .float s, .float k]) := by
  simp [ShowTrainingInfo, hx, hs, hk]

theorem ShowTrainingInfo_walking (action : ℤ) (duration weight height : ℚ)
    (lengthPool countPool : ℤ) {x s k : ℚ} (hx : distance action = some x)
    (hs : meanSpeed action duration = some s)
    (hk : WalkingSpentCalories action duration weight height = some k) :
    ShowTrainingInfo action "Ходьба" duration weight height lengthPool countPool =
      some (Sprintf resultMessage
        [.str "Ходьба", .float duration, .float x, .float s, .float k]) := by
  simp [ShowTrainingInfo, hx, hs, hk]

theorem ShowTrainingInfo_swimming (action : ℤ) (duration weight height : ℚ)
    (lengthPool countPool : ℤ) {x s k : ℚ} (hx : distance action = some x)
    (hs : swimmingMeanSpeed lengthPool countPool duration = some s)
    (hk : SwimmingSpentCalories lengthPool countPool weight duration = some k) :
    ShowTrainingInfo action "Плавание" duration weight height lengthPool countPool =
      some (Sprintf resultMessage
        [.str "Плавание", .float duration, .float x, .float s, .float k]) := by
  simp [ShowTrainingInfo, hx, hs, hk]

theorem ShowTrainingInfo_running_example :
    ShowTrainingInfo 1000 "Бег" 1 70 175 0 0 =
      some "Тип тренировки: Бег\n        Длительность: 1.00 ч.\n        Дистанция: 0.65 км.\n        Скорость: 0.65 км/ч.\n        Потрачено энергии: 87.96 ккал.\n        " := by
  have hx : distance 1000 = some 0.65 := by rw [distance_eq]; norm_num
  have hs : meanSpeed 1000 1 = some 0.65 := by
    rw [meanSpeed_of_ne 1000 one_ne_zero]; norm_num
  have hk : RunningSpentCalories 1000 70 1 = some (439803 / 5000) := by
    rw [RunningSpentCalories_of_speed 1000 70 1 0.65 hs]; norm_num
  rw [ShowTrainingInfo_running 1000 1 70 175 0 0 hx hs hk, Sprintf_resultMessage,
    formatFloat2_one,
    formatFloat2_of_near 0.65 65 (by norm_num) (by norm_num) (by norm_num),
    formatFloat2_of_near (439803 / 5000) 8796 (by norm_num) (by norm_num) (by norm_num)]
  decide

theorem ShowTrainingInfo_swimming_example :
    ShowTrainingInfo 0 "Плавание" 1 70 0 25 20 =
      some "Тип тренировки: Плавание\n        Длительность: 1.00 ч.\n        Дистанция: 0.00 км.\n        Скорость: 0.50 км/ч.\n        Потрачено энергии: 155.00 ккал.\n        " := by
  have hx : distance 0 = some 0 := by rw [distance_eq]; norm_num
  have hs : swimmingMeanSpeed 25 20 1 = some 0.5 := by
    rw [swimmingMeanSpeed_of_ne 25 20 one_ne_zero]; norm_num
  have hs2 : swimmingMeanSpeed 25 20 70 = some (1 / 140) := by
    rw [swimmingMeanSpeed_of_ne 25 20 (by norm_num)]; norm_num
  have hk : SwimmingSpentCalories 25 20 70 1 = some 155 := by
    rw [SwimmingSpentCalories_of_speed 25 20 70 1 (1 / 140) hs2]; norm_num
  rw [ShowTrainingInfo_swimming 0 1 70 0 25 20 hx hs hk, Sprintf_resultMessage,
    formatFloat2_one, formatFloat2_zero,
    formatFloat2_of_near 0.5 50 (by norm_num) (by norm_num) (by norm_num),
    formatFloat2_of_near 155 15500 (by norm_num) (by norm_num) (by norm_num)]
  decide

theorem ShowTrainingInfo_recognised (action : ℤ) (trainingType : String)
    (duration weight height : ℚ) (lengthPool countPool : ℤ)
    (ht : trainingType = "Бег" ∨ trainingType = "Ходьба" ∨ trainingType = "Плавание") :
    ShowTrainingInfo action trainingType duration weight height lengthPool countPool = none ∨
      ∃ x s k, ShowTrainingInfo action trainingType duration weight height lengthPool
        countPool = some (Sprintf resultMessage
          [.str trainingType, .float duration, .float x, .float s, .float k]) := by
  obtain ⟨s, hs, -⟩ := meanSpeed_total action duration
  obtain ⟨v, hv, -⟩ := swimmingMeanSpeed_total lengthPool countPool duration
  rcases ht with rfl | rfl | rfl
  · exact Or.inr ⟨_, _, _, ShowTrainingInfo_running action duration weight height lengthPool
      countPool (distance_eq action) hs (RunningSpentCalories_of_speed action weight duration s hs)⟩
  · cases hk : WalkingSpentCalories action duration weight height with
    | none => left; simp [ShowTrainingInfo, hk, distance_eq, hs]
    | some k =>
      exact Or.inr ⟨_, _, _, ShowTrainingInfo_walking action duration weight height lengthPool
        countPool (distance_eq action) hs hk⟩
  · obtain ⟨v2, hv2, -⟩ := swimmingMeanSpeed_total lengthPool countPool weight
    exact Or.inr ⟨_, _, _, ShowTrainingInfo_swimming action duration weight height lengthPool
      countPool (distance_eq action) hv
      (SwimmingSpentCalories_of_speed lengthPool countPool weight duration v2 hv2)⟩

theorem Sprintf_resultMessage_ne_spec (t : String) (d x s c d2 x2 s2 c2 : ℚ) :
    Sprintf resultMessage [.str t, .float d, .float x, .float s, .float c] ≠
      Sprintf specResultMessage [.str t, .float d2, .float x2, .float s2, .float c2] := by
  intro h
  have h2 := congrArg String.data h
  simp [Sprintf, resultMessage, specResultMessage, sprintfChars] at h2


/-! ## Lemmas of the binary64 reading -/

theorem binary64_Sprintf_resultMessage (t : String) (d x s c : F64) :
    Binary64.Sprintf resultMessage [.str t, .float d, .float x, .float s, .float c] =
      "Тип тренировки: " ++ t ++ "\n        Длительность: " ++ d.format2 ++
        " ч.\n        Дистанция: " ++ x.format2 ++ " км.\n        Скорость: " ++
        s.format2 ++ " км/ч.\n        Потрачено энергии: " ++ c.format2 ++
        " ккал.\n        " := by
  apply String.ext
  simp [Binary64.Sprintf, resultMessage, Binary64.sprintfChars]

theorem binary64_ShowTrainingInfo_running (action : ℤ) (duration weight height : F64)
    (lengthPool countPool : ℤ) :
    Binary64.ShowTrainingInfo action "Бег" duration weight height lengthPool countPool =
      Binary64.Sprintf resultMessage
        [.str "Бег", .float duration, .float (Binary64.distance action),
          .float (Binary64.meanSpeed action duration),
          .float (Binary64.RunningSpentCalories action weight duration)] := by
  simp [Binary64.ShowTrainingInfo, Id.run]

theorem binary64_ShowTrainingInfo_walking (action : ℤ) (duration weight height : F64)
    (lengthPool countPool : ℤ) :
    Binary64.ShowTrainingInfo action "Ходьба" duration weight height lengthPool countPool =
      Binary64.Sprintf resultMessage
        [.str "Ходьба", .float duration, .float (Binary64.distance action),
          .float (Binary64.meanSpeed action duration),
          .float (Binary64.WalkingSpentCalories action duration weight height)] := by
  simp [Binary64.ShowTrainingInfo, Id.run]

theorem binary64_ShowTrainingInfo_swimming (action : ℤ) (duration weight height : F64)
    (lengthPool countPool : ℤ) :
    Binary64.ShowTrainingInfo action "Плавание" duration weight height lengthPool countPool =
      Binary64.Sprintf resultMessage
        [.str "Плавание", .float duration, .float (Binary64.distance action),
          .float (Binary64.swimmingMeanSpeed lengthPool countPool duration),
          .float (Binary64.SwimmingSpentCalories lengthPool countPool weight duration)] := by
  simp [Binary64.ShowTrainingInfo, Id.run]

theorem binary64_ShowTrainingInfo_unknown (action : ℤ) (trainingType : String)
    (duration weight height : F64) (lengthPool countPool : ℤ)
    (h1 : trainingType ≠ "Бег") (h2 : trainingType ≠ "Ходьба")
    (h3 : trainingType ≠ "Плавание") :
    Binary64.ShowTrainingInfo action trainingType duration weight height lengthPool
      countPool = "неизвестный тип тренировки" := by
  simp [Binary64.ShowTrainingInfo, Id.run, h1, h2, h3]

theorem binary64_walking_zero_height_example :
    Binary64.ShowTrainingInfo 1000 "Ходьба" (F64.ofRat 1) (F64.ofRat 70) (F64.ofRat 0) 0 0 =
      "Тип тренировки: Ходьба\n        Длительность: 1.00 ч.\n        Дистанция: 0.65 км.\n        Скорость: 0.65 км/ч.\n        Потрачено энергии: +Inf ккал.\n        " := by
  decide!

theorem binary64_running_example :
    Binary64.ShowTrainingInfo 1000 "Бег" (F64.ofRat 1) (F64.ofRat 70) (F64.ofRat 175) 0 0 =
      "Тип тренировки: Бег\n        Длительность: 1.00 ч.\n        Дистанция: 0.65 км.\n        Скорость: 0.65 км/ч.\n        Потрачено энергии: 87.96 ккал.\n        " := by
  decide!

theorem binary64_running_two_hours_example :
    Binary64.ShowTrainingInfo 1000 "Бег" (F64.ofRat 2) (F64.ofRat 70) (F64.ofRat 175) 25 20 =
      "Тип тренировки: Бег\n        Длительность: 2.00 ч.\n        Дистанция: 0.65 км.\n        Скорость: 0.33 км/ч.\n        Потрачено энергии: 87.96 ккал.\n        " := by
  decide!

/-! ## The claims -/

/-- C1, the code against the claim: at action 1000, weight 70 and duration 1 the mean speed is
0.65 and `RunningSpentCalories` returns `(18 * 0.65 * 1.79) * 70 / 1000 * 1 * 60`, the
constant 1.79 multiplying the speed term; the value with the shift added,
`(18 * 0.65 + 1.79) * 70 / 1000 * 1 * 60`, is not what it returns. -/
theorem RunningSpentCalories_shift_multiplied :
    meanSpeed 1000 1 = some 0.65 ∧
      RunningSpentCalories 1000 70 1 = some ((18 * 0.65 * 1.79) * 70 / 1000 * 1 * 60) ∧
      RunningSpentCalories 1000 70 1 ≠ some ((18 * 0.65 + 1.79) * 70 / 1000 * 1 * 60) := by
  have hs : meanSpeed 1000 1 = some 0.65 := by
    rw [meanSpeed_of_ne 1000 one_ne_zero]; norm_num
  refine ⟨hs, RunningSpentCalories_of_speed 1000 70 1 0.65 hs, ?_⟩
  rw [RunningSpentCalories_of_speed 1000 70 1 0.65 hs]
  norm_num

/-- C2, the code against the claim: for action 0, duration 1, weight 70, height 0, a pool of
25 m swum 20 times, a direct call `SwimmingSpentCalories(25, 20, 1, 70)` gives 224, but the
report of `ShowTrainingInfo` carries 155.00, the value of `SwimmingSpentCalories(25, 20, 70, 1)`:
the call inside `ShowTrainingInfo` passes weight and duration in each other's place. -/
theorem ShowTrainingInfo_swimming_calories_swapped :
    SwimmingSpentCalories 25 20 1 70 = some 224 ∧
      SwimmingSpentCalories 25 20 70 1 = some 155 ∧
      ShowTrainingInfo 0 "Плавание" 1 70 0 25 20 =
        some (Sprintf resultMessage
          [.str "Плавание", .float 1, .float 0, .float 0.5, .float 155]) ∧
      ShowTrainingInfo 0 "Плавание" 1 70 0 25 20 =
        some "Тип тренировки: Плавание\n        Длительность: 1.00 ч.\n        Дистанция: 0.00 км.\n        Скорость: 0.50 км/ч.\n        Потрачено энергии: 155.00 ккал.\n        " ∧
      ShowTrainingInfo 0 "Плавание" 1 70 0 25 20 ≠
        some (Sprintf resultMessage
          [.str "Плавание", .float 1, .float 0, .float 0.5, .float 224]) := by
  have hx : distance 0 = some 0 := by rw [distance_eq]; norm_num
  have hs : swimmingMeanSpeed 25 20 1 = some 0.5 := by
    rw [swimmingMeanSpeed_of_ne 25 20 one_ne_zero]; norm_num
  have hs2 : swimmingMeanSpeed 25 20 70 = some (1 / 140) := by
    rw [swimmingMeanSpeed_of_ne 25 20 (by norm_num)]; norm_num
  have hk : SwimmingSpentCalories 25 20 70 1 = some 155 := by
    rw [SwimmingSpentCalories_of_speed 25 20 70 1 (1 / 140) hs2]; norm_num
  have h224 : SwimmingSpentCalories 25 20 1 70 = some 224 := by
    rw [SwimmingSpentCalories_of_speed 25 20 1 70 0.5 hs]; norm_num
  refine ⟨h224, hk, ShowTrainingInfo_swimming 0 1 70 0 25 20 hx hs hk,
    ShowTrainingInfo_swimming_example, ?_⟩
  rw [ShowTrainingInfo_swimming_example, Sprintf_resultMessage, formatFloat2_one,
    formatFloat2_zero,
    formatFloat2_of_near 0.5 50 (by norm_num) (by norm_num) (by norm_num),
    formatFloat2_of_near 224 22400 (by norm_num) (by norm_num) (by norm_num)]
  decide

/-- C3 as stated fails: the report for running with action 1000, duration 1, weight 70,
height 175 does carry the calorie value `(18*0.65*1.79)*70/1000*1.0*60`, but that value is
not printed as 48.96. -/
theorem ShowTrainingInfo_running_example_not_48_96 :
    ¬ (ShowTrainingInfo 1000 "Бег" 1 70 175 0 0 =
          some (Sprintf resultMessage
            [.str "Бег", .float 1, .float 0.65, .float 0.65,
              .float ((18 * 0.65 * 1.79) * 70 / 1000 * 1.0 * 60)]) ∧
        formatFloat2 ((18 * 0.65 * 1.79) * 70 / 1000 * 1.0 * 60) = "48.96") := by
  rintro ⟨-, h⟩
  rw [formatFloat2_of_near _ 8796 (by norm_num) (by norm_num) (by norm_num)] at h
  revert h
  decide

/-- C3 amended: for running with action 1000, duration 1, weight 70, height 175 and no pool,
`ShowTrainingInfo` reports distance 0.65, mean speed 0.65 and the calorie value
`(18*0.65*1.79)*70/1000*1.0*60`, which is 87.9606 and is printed as 87.96. -/
theorem ShowTrainingInfo_running_example_87_96 :
    ShowTrainingInfo 1000 "Бег" 1 70 175 0 0 =
        some (Sprintf resultMessage
          [.str "Бег", .float 1, .float 0.65, .float 0.65,
            .float ((18 * 0.65 * 1.79) * 70 / 1000 * 1.0 * 60)]) ∧
      ((18 * 0.65 * 1.79) * 70 / 1000 * 1.0 * 60 : ℚ) = 87.9606 ∧
      roundHalfEven ((18 * 0.65 * 1.79) * 70 / 1000 * 1.0 * 60 * 100) = 8796 ∧
      formatFloat2 0.65 = "0.65" ∧
      formatFloat2 ((18 * 0.65 * 1.79) * 70 / 1000 * 1.0 * 60) = "87.96" ∧
      ShowTrainingInfo 1000 "Бег" 1 70 175 0 0 =
        some "Тип тренировки: Бег\n        Длительность: 1.00 ч.\n        Дистанция: 0.65 км.\n        Скорость: 0.65 км/ч.\n        Потрачено энергии: 87.96 ккал.\n        " := by
  have hx : distance 1000 = some 0.65 := by rw [distance_eq]; norm_num
  have hs : meanSpeed 1000 1 = some 0.65 := by
    rw [meanSpeed_of_ne 1000 one_ne_zero]; norm_num
  have hk : RunningSpentCalories 1000 70 1 =
      some ((18 * 0.65 * 1.79) * 70 / 1000 * 1.0 * 60) := by
    rw [RunningSpentCalories_of_speed 1000 70 1 0.65 hs]; norm_num
  refine ⟨ShowTrainingInfo_running 1000 1 70 175 0 0 hx hs hk, by norm_num, ?_, ?_, ?_,
    ShowTrainingInfo_running_example⟩
  · exact roundHalfEven_of_near _ 8796 (by norm_num) (by norm_num)
  · rw [formatFloat2_of_near 0.65 65 (by norm_num) (by norm_num) (by norm_num)]
    decide
  · rw [formatFloat2_of_near _ 8796 (by norm_num) (by norm_num) (by norm_num)]
    decide

/-- C4: for every training type other than "Бег", "Ходьба" and "Плавание" and for all numeric
arguments, `ShowTrainingInfo` returns exactly the sentinel "неизвестный тип тренировки". -/
theorem ShowTrainingInfo_unknown (action : ℤ) (trainingType : String)
    (duration weight height : ℚ) (lengthPool countPool : ℤ)
    (h1 : trainingType ≠ "Бег") (h2 : trainingType ≠ "Ходьба")
    (h3 : trainingType ≠ "Плавание") :
    ShowTrainingInfo action trainingType duration weight height lengthPool countPool =
      some "неизвестный тип тренировки" := by
  simp [ShowTrainingInfo, h1, h2, h3]

/-- Witness of C4 at the training type "Йога". -/
theorem ShowTrainingInfo_unknown_witness :
    ShowTrainingInfo 4000 "Йога" 1 70 0 25 20 = some "неизвестный тип тренировки" :=
  ShowTrainingInfo_unknown 4000 "Йога" 1 70 0 25 20 (by decide) (by decide) (by decide)

/-- C5: with a zero duration `meanSpeed` is 0 for every action count and `swimmingMeanSpeed`
is 0 for every pool length and count. -/
theorem zero_duration_guard :
    (∀ action : ℤ, meanSpeed action 0 = some 0) ∧
      (∀ lengthPool countPool : ℤ, swimmingMeanSpeed lengthPool countPool 0 = some 0) :=
  ⟨meanSpeed_zero, swimmingMeanSpeed_zero⟩

/-- C6: `distance(action) = action * 0.65 / 1000` for every action count; `distance(0) = 0`
and `distance(1000) = 0.65`. -/
theorem distance_formula :
    (∀ action : ℤ, distance action = some ((action : ℚ) * 0.65 / 1000)) ∧
      distance 0 = some 0 ∧ distance 1000 = some 0.65 := by
  refine ⟨distance_eq, ?_, ?_⟩
  · rw [distance_eq]; norm_num
  · rw [distance_eq]; norm_num

/-- C7: for a duration `d > 0`, `meanSpeed` is linear in the action count,
`meanSpeed(k*a, d) = k * meanSpeed(a, d)` for every integer `k`, and inverse in the duration,
`meanSpeed(a, c*d) = meanSpeed(a, d) / c` for every `c > 0`. -/
theorem meanSpeed_scaling (a k : ℤ) (d c : ℚ) (hd : 0 < d) (hc : 0 < c) :
    ∃ v, meanSpeed a d = some v ∧ meanSpeed (k * a) d = some ((k : ℚ) * v) ∧
      meanSpeed a (c * d) = some (v / c) := by
  refine ⟨_, meanSpeed_of_ne a hd.ne', ?_, ?_⟩
  · rw [meanSpeed_of_ne (k * a) hd.ne']
    congr 1
    push_cast
    ring
  · rw [meanSpeed_of_ne a (mul_pos hc hd).ne']
    rw [mul_comm c d, ← div_div]

/-- Witness of C7 at 1000 steps in 2 hours, tripled steps and a fourfold duration. -/
theorem meanSpeed_scaling_witness :
    ∃ v, meanSpeed 1000 2 = some v ∧ meanSpeed (3 * 1000) 2 = some (((3 : ℤ) : ℚ) * v) ∧
      meanSpeed 1000 (4 * 2) = some (v / 4) :=
  meanSpeed_scaling 1000 3 2 4 (by norm_num) (by norm_num)

/-- C8 as stated fails on the `float64` of the code: with 1000 steps, a 25 m pool swum 20
times, one hour and 175 cm, the weights 58 and 58 + 2^-47 (the next `float64` above 58) are
both `float64` values with 58 < 58 + 2^-47, yet each of `RunningSpentCalories`,
`WalkingSpentCalories` and `SwimmingSpentCalories` returns the same value at both, so the
result at the smaller weight is not below the result at the larger one. -/
theorem spentCalories_weight_collision_binary64 :
    F64.ofRat 58 = F64.fin false 58 ∧
      F64.ofRat (58 + 1 / 2 ^ 47) = F64.fin false (58 + 1 / 2 ^ 47) ∧
      F64.lt (F64.ofRat 58) (F64.ofRat (58 + 1 / 2 ^ 47)) = true ∧
      Binary64.RunningSpentCalories 1000 (F64.ofRat 58) (F64.ofRat 1) =
        Binary64.RunningSpentCalories 1000 (F64.ofRat (58 + 1 / 2 ^ 47)) (F64.ofRat 1) ∧
      Binary64.WalkingSpentCalories 1000 (F64.ofRat 1) (F64.ofRat 58) (F64.ofRat 175) =
        Binary64.WalkingSpentCalories 1000 (F64.ofRat 1) (F64.ofRat (58 + 1 / 2 ^ 47))
          (F64.ofRat 175) ∧
      Binary64.SwimmingSpentCalories 25 20 (F64.ofRat 1) (F64.ofRat 58) =
        Binary64.SwimmingSpentCalories 25 20 (F64.ofRat 1) (F64.ofRat (58 + 1 / 2 ^ 47)) ∧
      F64.lt (Binary64.RunningSpentCalories 1000 (F64.ofRat 58) (F64.ofRat 1))
        (Binary64.RunningSpentCalories 1000 (F64.ofRat (58 + 1 / 2 ^ 47)) (F64.ofRat 1)) =
          false ∧
      F64.lt (Binary64.WalkingSpentCalories 1000 (F64.ofRat 1) (F64.ofRat 58) (F64.ofRat 175))
        (Binary64.WalkingSpentCalories 1000 (F64.ofRat 1) (F64.ofRat (58 + 1 / 2 ^ 47))
          (F64.ofRat 175)) = false ∧
      F64.lt (Binary64.SwimmingSpentCalories 25 20 (F64.ofRat 1) (F64.ofRat 58))
        (Binary64.SwimmingSpentCalories 25 20 (F64.ofRat 1) (F64.ofRat (58 + 1 / 2 ^ 47))) =
          false ∧
      Binary64.RunningSpentCalories 1000 (F64.ofRat 58) (F64.ofRat 1) =
        F64.fin false (1282147370102151 / 17592186044416) ∧
      Binary64.WalkingSpentCalories 1000 (F64.ofRat 1) (F64.ofRat 58) (F64.ofRat 175) =
        F64.fin false (8703418966037019 / 70368744177664) ∧
      Binary64.SwimmingSpentCalories 25 20 (F64.ofRat 1) (F64.ofRat 58) =
        F64.fin false (1632554864921805 / 8796093022208) := by
  decide!

/-- C8 amended: read over exact reals, with a positive action count (for swimming: positive
pool length and count), a positive duration and a positive height, each of
`RunningSpentCalories`, `WalkingSpentCalories` and `SwimmingSpentCalories` returns a value,
and the value at weight `w1` is strictly below the value at weight `w2` whenever `w1 < w2`. -/
theorem spentCalories_strictMono_weight (action lengthPool countPool : ℤ)
    (duration height w1 w2 : ℚ) (ha : 0 < action) (hl : 0 < lengthPool) (hc : 0 < countPool)
    (hd : 0 < duration) (hh : 0 < height) (hw : w1 < w2) :
    (∃ r1 r2, RunningSpentCalories action w1 duration = some r1 ∧
        RunningSpentCalories action w2 duration = some r2 ∧ r1 < r2) ∧
      (∃ r1 r2, WalkingSpentCalories action duration w1 height = some r1 ∧
        WalkingSpentCalories action duration w2 height = some r2 ∧ r1 < r2) ∧
      (∃ r1 r2, SwimmingSpentCalories lengthPool countPool duration w1 = some r1 ∧
        SwimmingSpentCalories lengthPool countPool duration w2 = some r2 ∧ r1 < r2) := by
  obtain ⟨s, hs, -, hpos⟩ := meanSpeed_total action duration
  have hs0 : 0 < s := hpos ha hd
  obtain ⟨v, hv, hnn⟩ := swimmingMeanSpeed_total lengthPool countPool duration
  have hv0 : 0 ≤ v := hnn hl.le hc.le hd.le
  have hdw : 0 < w2 - w1 := sub_pos.mpr hw
  refine ⟨⟨_, _, RunningSpentCalories_of_speed action w1 duration s hs,
      RunningSpentCalories_of_speed action w2 duration s hs, ?_⟩,
    ⟨_, _, WalkingSpentCalories_of_speed action duration w1 height s hh.ne' hs,
      WalkingSpentCalories_of_speed action duration w2 height s hh.ne' hs, ?_⟩,
    ⟨_, _, SwimmingSpentCalories_of_speed lengthPool countPool duration w1 v hv,
      SwimmingSpentCalories_of_speed lengthPool countPool duration w2 v hv, ?_⟩⟩
  · have hk : 0 < 18 * s * 1.79 / 1000 * duration * 60 := by positivity
    have := mul_pos hdw hk
    rw [← sub_pos]
    calc (0 : ℚ) < (w2 - w1) * (18 * s * 1.79 / 1000 * duration * 60) := this
      _ = _ := by ring
  · have hk : 0 < (0.035 + (s * 0.278) ^ 2 / (height / 100) * 0.029) * duration * 60 := by
      positivity
    have := mul_pos hdw hk
    rw [← sub_pos]
    calc (0 : ℚ) < (w2 - w1) *
          ((0.035 + (s * 0.278) ^ 2 / (height / 100) * 0.029) * duration * 60) := this
      _ = _ := by ring
  · have hk : 0 < (v + 1.1) * 2 * duration := by positivity
    have := mul_pos hdw hk
    rw [← sub_pos]
    calc (0 : ℚ) < (w2 - w1) * ((v + 1.1) * 2 * duration) := this
      _ = _ := by ring

/-- Witness of the amended C8: 1000 steps, a 25 m pool swum 20 times, one hour, 175 cm, 60 kg against
70 kg. -/
theorem spentCalories_strictMono_weight_witness :
    (∃ r1 r2, RunningSpentCalories 1000 60 1 = some r1 ∧
        RunningSpentCalories 1000 70 1 = some r2 ∧ r1 < r2) ∧
      (∃ r1 r2, WalkingSpentCalories 1000 1 60 175 = some r1 ∧
        WalkingSpentCalories 1000 1 70 175 = some r2 ∧ r1 < r2) ∧
      (∃ r1 r2, SwimmingSpentCalories 25 20 1 60 = some r1 ∧
        SwimmingSpentCalories 25 20 1 70 = some r2 ∧ r1 < r2) :=
  spentCalories_strictMono_weight 1000 25 20 1 175 60 70 (by decide) (by decide) (by decide)
    (by norm_num) (by norm_num) (by norm_num)

/-- C9 as stated fails on the `float64` of the code: with a 25 m pool swum 20 times, zero
duration and the weight 1e308, all inputs non-negative, the product `(0 + 1.1) * 2 * weight`
overflows to `+Inf` and its product with the zero duration is NaN, which is not `>= 0`. -/
theorem SwimmingSpentCalories_overflow_nan_binary64 :
    F64.le (F64.ofRat 0) (F64.ofRat (10 ^ 308)) = true ∧
      F64.le (F64.ofRat 0) (F64.ofRat 0) = true ∧
      (Binary64.swimmingMeanSpeed 25 20 (F64.ofRat 0) +
          F64.ofRat swimmingCaloriesMeanSpeedShift) *
        F64.ofRat swimmingCaloriesWeightMultiplier * F64.ofRat (10 ^ 308) = F64.inf false ∧
      Binary64.SwimmingSpentCalories 25 20 (F64.ofRat 0) (F64.ofRat (10 ^ 308)) = F64.nan ∧
      F64.le (F64.ofRat 0)
        (Binary64.SwimmingSpentCalories 25 20 (F64.ofRat 0) (F64.ofRat (10 ^ 308))) = false := by
  decide!

/-- C9 amended: read over exact reals, with action count, pool length, pool count, duration
and weight all non-negative and a positive height, each of `RunningSpentCalories`,
`WalkingSpentCalories` and `SwimmingSpentCalories` returns a value, and that value is
non-negative. -/
theorem spentCalories_nonneg (action lengthPool countPool : ℤ) (duration weight height : ℚ)
    (ha : 0 ≤ action) (hl : 0 ≤ lengthPool) (hc : 0 ≤ countPool) (hd : 0 ≤ duration)
    (hw : 0 ≤ weight) (hh : 0 < height) :
    (∃ r, RunningSpentCalories action weight duration = some r ∧ 0 ≤ r) ∧
      (∃ r, WalkingSpentCalories action duration weight height = some r ∧ 0 ≤ r) ∧
      (∃ r, SwimmingSpentCalories lengthPool countPool duration weight = some r ∧ 0 ≤ r) := by
  obtain ⟨s, hs, hnn, -⟩ := meanSpeed_total action duration
  have hs0 : 0 ≤ s := hnn ha hd
  obtain ⟨v, hv, hvn⟩ := swimmingMeanSpeed_total lengthPool countPool duration
  have hv0 : 0 ≤ v := hvn hl hc hd
  refine ⟨⟨_, RunningSpentCalories_of_speed action weight duration s hs, by positivity⟩,
    ⟨_, WalkingSpentCalories_of_speed action duration weight height s hh.ne' hs,
      by positivity⟩,
    ⟨_, SwimmingSpentCalories_of_speed lengthPool countPool duration weight v hv,
      by positivity⟩⟩

/-- Witness of the amended C9: 1000 steps, a 25 m pool swum 20 times, an hour and a half,
70 kg, 175 cm. -/
theorem spentCalories_nonneg_witness :
    (∃ r, RunningSpentCalories 1000 70 (3 / 2) = some r ∧ 0 ≤ r) ∧
      (∃ r, WalkingSpentCalories 1000 (3 / 2) 70 175 = some r ∧ 0 ≤ r) ∧
      (∃ r, SwimmingSpentCalories 25 20 (3 / 2) 70 = some r ∧ 0 ≤ r) :=
  spentCalories_nonneg 1000 25 20 (3 / 2) 70 175 (by decide) (by decide) (by decide)
    (by norm_num) (by norm_num) (by norm_num)

/-- C10, the code against the claim: the report for running with action 1000, duration 1,
weight 70, height 175 has eight blanks between each newline and the label that follows and
eight blanks after the last newline, so it is not the text the specification's template
gives for the same values; and for each of the three recognised types, whatever the numeric
inputs, the result is never the specification's template filled with any four numbers. -/
theorem ShowTrainingInfo_template_indented :
    ShowTrainingInfo 1000 "Бег" 1 70 175 0 0 =
        some "Тип тренировки: Бег\n        Длительность: 1.00 ч.\n        Дистанция: 0.65 км.\n        Скорость: 0.65 км/ч.\n        Потрачено энергии: 87.96 ккал.\n        " ∧
      Sprintf specResultMessage
          [.str "Бег", .float 1, .float 0.65, .float 0.65, .float 87.9606] =
        "Тип тренировки: Бег\nДлительность: 1.00 ч.\nДистанция: 0.65 км.\nСкорость: 0.65 км/ч.\nПотрачено энергии: 87.96 ккал.\n" ∧
      ShowTrainingInfo 1000 "Бег" 1 70 175 0 0 ≠
        some (Sprintf specResultMessage
          [.str "Бег", .float 1, .float 0.65, .float 0.65, .float 87.9606]) ∧
      (∀ (action : ℤ) (duration weight height : ℚ) (lengthPool countPool : ℤ)
          (d x s c : ℚ),
        ShowTrainingInfo action "Бег" duration weight height lengthPool countPool ≠
            some (Sprintf specResultMessage [.str "Бег", .float d, .float x, .float s, .float c]) ∧
          ShowTrainingInfo action "Ходьба" duration weight height lengthPool countPool ≠
            some (Sprintf specResultMessage
              [.str "Ходьба", .float d, .float x, .float s, .float c]) ∧
          ShowTrainingInfo action "Плавание" duration weight height lengthPool countPool ≠
            some (Sprintf specResultMessage
              [.str "Плавание", .float d, .float x, .float s, .float c])) := by
  have hspec : Sprintf specResultMessage
      [.str "Бег", .float 1, .float 0.65, .float 0.65, .float 87.9606] =
      "Тип тренировки: Бег\nДлительность: 1.00 ч.\nДистанция: 0.65 км.\nСкорость: 0.65 км/ч.\nПотрачено энергии: 87.96 ккал.\n" := by
    rw [Sprintf_specResultMessage, formatFloat2_one,
      formatFloat2_of_near 0.65 65 (by norm_num) (by norm_num) (by norm_num),
      formatFloat2_of_near 87.9606 8796 (by norm_num) (by norm_num) (by norm_num)]
    decide
  have hall : ∀ (action : ℤ) (t : String) (duration weight height : ℚ)
      (lengthPool countPool : ℤ) (d x s c : ℚ),
      (t = "Бег" ∨ t = "Ходьба" ∨ t = "Плавание") →
      ShowTrainingInfo action t duration weight height lengthPool countPool ≠
        some (Sprintf specResultMessage [.str t, .float d, .float x, .float s, .float c]) := by
    intro action t duration weight height lengthPool countPool d x s c ht
    rcases ShowTrainingInfo_recognised action t duration weight height lengthPool countPool ht
      with h | ⟨x1, s1, k1, h⟩
    · rw [h]; exact Option.noConfusion
    · rw [h]
      intro he
      exact Sprintf_resultMessage_ne_spec t duration x1 s1 k1 d x s c (Option.some.inj he)
  refine ⟨ShowTrainingInfo_running_example, hspec, ?_, ?_⟩
  · rw [ShowTrainingInfo_running_example, hspec]
    decide
  · intro action duration weight height lengthPool countPool d x s c
    exact ⟨hall action _ duration weight height lengthPool countPool d x s c (Or.inl rfl),
      hall action _ duration weight height lengthPool countPool d x s c (Or.inr (Or.inl rfl)),
      hall action _ duration weight height lengthPool countPool d x s c (Or.inr (Or.inr rfl))⟩

/-- C11: `ShowTrainingInfo` reads the height only for walking and the pool arguments only for
swimming.  For "Бег" the result is the same for any two values of height, pool length and
pool count; for "Ходьба" it is the same for any two values of pool length and pool count;
for "Плавание" it is the same for any two values of height. -/
theorem ShowTrainingInfo_unused_inputs (action : ℤ) (duration weight : ℚ) :
    (∀ (h1 h2 : ℚ) (l1 l2 c1 c2 : ℤ),
        ShowTrainingInfo action "Бег" duration weight h1 l1 c1 =
          ShowTrainingInfo action "Бег" duration weight h2 l2 c2) ∧
      (∀ (height : ℚ) (l1 l2 c1 c2 : ℤ),
        ShowTrainingInfo action "Ходьба" duration weight height l1 c1 =
          ShowTrainingInfo action "Ходьба" duration weight height l2 c2) ∧
      (∀ (h1 h2 : ℚ) (lengthPool countPool : ℤ),
        ShowTrainingInfo action "Плавание" duration weight h1 lengthPool countPool =
          ShowTrainingInfo action "Плавание" duration weight h2 lengthPool countPool) := by
  refine ⟨?_, ?_, ?_⟩
  · intro h1 h2 l1 l2 c1 c2
    simp [ShowTrainingInfo]
  · intro height l1 l2 c1 c2
    simp [ShowTrainingInfo]
  · intro h1 h2 lengthPool countPool
    simp [ShowTrainingInfo]

/-- C12: for a height different from 0, `WalkingSpentCalories(action, duration, weight, height)`
is `(0.035 * weight + (s^2 / (height / 100)) * 0.029 * weight) * duration * 60` with
`s = meanSpeed(action, duration) * 0.278`. -/
theorem WalkingSpentCalories_formula (action : ℤ) (duration weight height : ℚ)
    (hh : height ≠ 0) :
    ∃ v, meanSpeed action duration = some v ∧
      WalkingSpentCalories action duration weight height =
        some ((0.035 * weight + ((v * 0.278) ^ 2 / (height / 100)) * 0.029 * weight) *
          duration * 60) := by
  obtain ⟨v, hv, -⟩ := meanSpeed_total action duration
  exact ⟨v, hv, WalkingSpentCalories_of_speed action duration weight height v hh hv⟩

/-- Witness of C12: 4000 steps in one hour, 70 kg, 175 cm. -/
theorem WalkingSpentCalories_formula_witness :
    ∃ v, meanSpeed 4000 1 = some v ∧
      WalkingSpentCalories 4000 1 70 175 =
        some ((0.035 * 70 + ((v * 0.278) ^ 2 / (175 / 100)) * 0.029 * 70) * 1 * 60) :=
  WalkingSpentCalories_formula 4000 1 70 175 (by norm_num)

/-- C13: for a duration different from 0, a direct call
`SwimmingSpentCalories(lengthPool, countPool, duration, weight)` is
`(lengthPool * countPool / 1000 / duration + 1.1) * 2 * weight * duration`; and
`SwimmingSpentCalories(25, 20, 1.0, 70) = 224`. -/
theorem SwimmingSpentCalories_formula (lengthPool countPool : ℤ) (duration weight : ℚ)
    (hd : duration ≠ 0) :
    SwimmingSpentCalories lengthPool countPool duration weight =
        some (((lengthPool : ℚ) * (countPool : ℚ) / 1000 / duration + 1.1) * 2 * weight *
          duration) ∧
      SwimmingSpentCalories 25 20 1.0 70 = some 224 := by
  refine ⟨SwimmingSpentCalories_of_speed lengthPool countPool duration weight _
    (swimmingMeanSpeed_of_ne lengthPool countPool hd), ?_⟩
  rw [SwimmingSpentCalories_of_speed 25 20 1.0 70 _
    (swimmingMeanSpeed_of_ne 25 20 (by norm_num))]
  norm_num

/-- Witness of C13: a 50 m pool swum 30 times in two hours at 80 kg. -/
theorem SwimmingSpentCalories_formula_witness :
    SwimmingSpentCalories 50 30 2 80 =
        some ((((50 : ℤ) : ℚ) * ((30 : ℤ) : ℚ) / 1000 / 2 + 1.1) * 2 * 80 * 2) ∧
      SwimmingSpentCalories 25 20 1.0 70 = some 224 :=
  SwimmingSpentCalories_formula 50 30 2 80 (by norm_num)

/-- C14 as stated fails for swimming: for action 0, duration 1, weight 70, a 25 m pool swum
20 times, the report carries the distance `distance(0) = 0` and the speed
`swimmingMeanSpeed(25, 20, 1) = 0.5` (printed 0.00 km and 0.50 km/h), and 0.5 is not 0 / 1;
the same in the exact reading and in binary64. -/
theorem ShowTrainingInfo_swimming_speed_not_distance_over_duration :
    (distance 0 = some 0 ∧ swimmingMeanSpeed 25 20 1 = some 0.5 ∧
      ShowTrainingInfo 0 "Плавание" 1 70 0 25 20 =
        some (Sprintf resultMessage
          [.str "Плавание", .float 1, .float 0, .float 0.5, .float 155]) ∧
      ShowTrainingInfo 0 "Плавание" 1 70 0 25 20 =
        some "Тип тренировки: Плавание\n        Длительность: 1.00 ч.\n        Дистанция: 0.00 км.\n        Скорость: 0.50 км/ч.\n        Потрачено энергии: 155.00 ккал.\n        " ∧
      (0.5 : ℚ) ≠ 0 / 1) ∧
    (Binary64.distance 0 = F64.fin false 0 ∧
      Binary64.swimmingMeanSpeed 25 20 (F64.ofRat 1) = F64.fin false (1 / 2) ∧
      Binary64.distance 0 / F64.ofRat 1 = F64.fin false 0 ∧
      Binary64.swimmingMeanSpeed 25 20 (F64.ofRat 1) ≠ Binary64.distance 0 / F64.ofRat 1 ∧
      Binary64.ShowTrainingInfo 0 "Плавание" (F64.ofRat 1) (F64.ofRat 70) (F64.ofRat 0) 25 20 =
        "Тип тренировки: Плавание\n        Длительность: 1.00 ч.\n        Дистанция: 0.00 км.\n        Скорость: 0.50 км/ч.\n        Потрачено энергии: 155.00 ккал.\n        ") := by
  have hx : distance 0 = some 0 := by rw [distance_eq]; norm_num
  have hs : swimmingMeanSpeed 25 20 1 = some 0.5 := by
    rw [swimmingMeanSpeed_of_ne 25 20 one_ne_zero]; norm_num
  have hk : SwimmingSpentCalories 25 20 70 1 = some 155 := by
    rw [SwimmingSpentCalories_of_speed 25 20 70 1 _
      (swimmingMeanSpeed_of_ne 25 20 (by norm_num))]
    norm_num
  exact ⟨⟨hx, hs, ShowTrainingInfo_swimming 0 1 70 0 25 20 hx hs hk,
    ShowTrainingInfo_swimming_example, by norm_num⟩, by decide!⟩

/-- C14 amended: with a duration different from 0 and whatever the height, the reports for
running and for walking carry the distance `distance(action)` and, as mean speed, that
distance divided by the duration (the `float64` quotient the code computes); the report for
swimming carries the same distance `distance(action)` but the speed
`lengthPool * countPool / 1000 / duration`, which is not derived from it. -/
theorem ShowTrainingInfo_speed_and_distance (action lengthPool countPool : ℤ)
    (duration weight height : F64) (hd : duration.eqZero = false) :
    Binary64.ShowTrainingInfo action "Бег" duration weight height lengthPool countPool =
        Binary64.Sprintf resultMessage
          [.str "Бег", .float duration, .float (Binary64.distance action),
            .float (Binary64.distance action / duration),
            .float (Binary64.RunningSpentCalories action weight duration)] ∧
      Binary64.ShowTrainingInfo action "Ходьба" duration weight height lengthPool countPool =
        Binary64.Sprintf resultMessage
          [.str "Ходьба", .float duration, .float (Binary64.distance action),
            .float (Binary64.distance action / duration),
            .float (Binary64.WalkingSpentCalories action duration weight height)] ∧
      Binary64.ShowTrainingInfo action "Плавание" duration weight height lengthPool
          countPool =
        Binary64.Sprintf resultMessage
          [.str "Плавание", .float duration, .float (Binary64.distance action),
            .float (F64.ofInt lengthPool * F64.ofInt countPool / F64.ofRat 1000 / duration),
            .float (Binary64.SwimmingSpentCalories lengthPool countPool weight duration)] := by
  have hs : Binary64.meanSpeed action duration = Binary64.distance action / duration := by
    simp [Binary64.meanSpeed, hd]
  have hv : Binary64.swimmingMeanSpeed lengthPool countPool duration =
      F64.ofInt lengthPool * F64.ofInt countPool / F64.ofRat 1000 / duration := by
    simp [Binary64.swimmingMeanSpeed, hd, mInKm]
  refine ⟨?_, ?_, ?_⟩
  · rw [binary64_ShowTrainingInfo_running, hs]
  · rw [binary64_ShowTrainingInfo_walking, hs]
  · rw [binary64_ShowTrainingInfo_swimming, hv]

/-- Witness of the amended C14: 1000 steps or strokes, two hours, 70 kg, a height of 0, a 25 m
pool swum 20 times. -/
theorem ShowTrainingInfo_speed_and_distance_witness :
    Binary64.ShowTrainingInfo 1000 "Бег" (F64.ofRat 2) (F64.ofRat 70) (F64.ofRat 0) 25 20 =
        Binary64.Sprintf resultMessage
          [.str "Бег", .float (F64.ofRat 2), .float (Binary64.distance 1000),
            .float (Binary64.distance 1000 / F64.ofRat 2),
            .float (Binary64.RunningSpentCalories 1000 (F64.ofRat 70) (F64.ofRat 2))] ∧
      Binary64.ShowTrainingInfo 1000 "Ходьба" (F64.ofRat 2) (F64.ofRat 70) (F64.ofRat 0) 25 20 =
        Binary64.Sprintf resultMessage
          [.str "Ходьба", .float (F64.ofRat 2), .float (Binary64.distance 1000),
            .float (Binary64.distance 1000 / F64.ofRat 2),
            .float (Binary64.WalkingSpentCalories 1000 (F64.ofRat 2) (F64.ofRat 70)
              (F64.ofRat 0))] ∧
      Binary64.ShowTrainingInfo 1000 "Плавание" (F64.ofRat 2) (F64.ofRat 70) (F64.ofRat 0) 25
          20 =
        Binary64.Sprintf resultMessage
          [.str "Плавание", .float (F64.ofRat 2), .float (Binary64.distance 1000),
            .float (F64.ofInt 25 * F64.ofInt 20 / F64.ofRat 1000 / F64.ofRat 2),
            .float (Binary64.SwimmingSpentCalories 25 20 (F64.ofRat 70) (F64.ofRat 2))] :=
  ShowTrainingInfo_speed_and_distance 1000 25 20 (F64.ofRat 2) (F64.ofRat 70) (F64.ofRat 0)
    (by decide!)

/-- C15: every division of the embedding goes through `fdiv`, which fails exactly on a zero
divisor, and nothing else fails; so a function returns a value exactly when no division it
reached had a zero divisor.  With a height different from 0 each of `distance`, `meanSpeed`,
`swimmingMeanSpeed`, `RunningSpentCalories`, `WalkingSpentCalories`, `SwimmingSpentCalories`
and `ShowTrainingInfo` returns a value, for every other input; the division `height / 100`
itself never fails, its quotient is 0 exactly when the height is 0, and
`WalkingSpentCalories`, which divides by that quotient, fails exactly when the height is 0. -/
theorem division_safety (action lengthPool countPool : ℤ) (trainingType : String)
    (duration weight height : ℚ) (hh : height ≠ 0) :
    (∃ v, distance action = some v) ∧
      (∃ v, meanSpeed action duration = some v) ∧
      (∃ v, swimmingMeanSpeed lengthPool countPool duration = some v) ∧
      (∃ v, RunningSpentCalories action weight duration = some v) ∧
      (∃ v, WalkingSpentCalories action duration weight height = some v) ∧
      (∃ v, SwimmingSpentCalories lengthPool countPool duration weight = some v) ∧
      (∃ r, ShowTrainingInfo action trainingType duration weight height lengthPool
        countPool = some r) ∧
      (∀ h : ℚ, fdiv h cmInM = some (h / 100) ∧ (h / 100 = 0 ↔ h = 0) ∧
        (WalkingSpentCalories action duration weight h = none ↔ h = 0)) := by
  obtain ⟨s, hs, -⟩ := meanSpeed_total action duration
  obtain ⟨v, hv, -⟩ := swimmingMeanSpeed_total lengthPool countPool duration
  obtain ⟨v2, hv2, -⟩ := swimmingMeanSpeed_total lengthPool countPool weight
  have hrun := RunningSpentCalories_of_speed action weight duration s hs
  have hwalk := WalkingSpentCalories_of_speed action duration weight height s hh hs
  refine ⟨⟨_, distance_eq action⟩, ⟨s, hs⟩, ⟨v, hv⟩, ⟨_, hrun⟩, ⟨_, hwalk⟩,
    ⟨_, SwimmingSpentCalories_of_speed lengthPool countPool duration weight v hv⟩, ?_, ?_⟩
  · by_cases h1 : trainingType = "Бег"
    · subst h1
      exact ⟨_, ShowTrainingInfo_running action duration weight height lengthPool countPool
        (distance_eq action) hs hrun⟩
    · by_cases h2 : trainingType = "Ходьба"
      · subst h2
        exact ⟨_, ShowTrainingInfo_walking action duration weight height lengthPool countPool
          (distance_eq action) hs hwalk⟩
      · by_cases h3 : trainingType = "Плавание"
        · subst h3
          exact ⟨_, ShowTrainingInfo_swimming action duration weight height lengthPool
            countPool (distance_eq action) hv
            (SwimmingSpentCalories_of_speed lengthPool countPool weight duration v2 hv2)⟩
        · exact ⟨"неизвестный тип тренировки", by simp [ShowTrainingInfo, h1, h2, h3]⟩
  · intro h
    refine ⟨by simp [fdiv, cmInM], by simp, ?_, ?_⟩
    · intro hn
      by_contra h0
      rw [WalkingSpentCalories_of_speed action duration weight h s h0 hs] at hn
      exact Option.noConfusion hn
    · rintro rfl
      simp [WalkingSpentCalories, hs, fdiv, cmInM]

/-- Witness of C15 at the walking type, zero duration and a height of 175. -/
theorem division_safety_witness :
    (∃ v, distance 1000 = some v) ∧
      (∃ v, meanSpeed 1000 0 = some v) ∧
      (∃ v, swimmingMeanSpeed 25 20 0 = some v) ∧
      (∃ v, RunningSpentCalories 1000 70 0 = some v) ∧
      (∃ v, WalkingSpentCalories 1000 0 70 175 = some v) ∧
      (∃ v, SwimmingSpentCalories 25 20 0 70 = some v) ∧
      (∃ r, ShowTrainingInfo 1000 "Ходьба" 0 70 175 25 20 = some r) ∧
      (∀ h : ℚ, fdiv h cmInM = some (h / 100) ∧ (h / 100 = 0 ↔ h = 0) ∧
        (WalkingSpentCalories 1000 0 70 h = none ↔ h = 0)) :=
  division_safety 1000 25 20 "Ходьба" 0 70 175 (by norm_num)

/-- C16: once the duration is not 0, `RunningSpentCalories` does not depend on it: for
durations `d1` and `d2` different from 0 both calls return
`18 * 1.79 * 60 / 1000 * distance(action) * weight`. -/
theorem RunningSpentCalories_duration_cancels (action : ℤ) (weight d1 d2 : ℚ)
    (h1 : d1 ≠ 0) (h2 : d2 ≠ 0) :
    ∃ x, distance action = some x ∧
      RunningSpentCalories action weight d1 = some (18 * 1.79 * 60 / 1000 * x * weight) ∧
      RunningSpentCalories action weight d2 = some (18 * 1.79 * 60 / 1000 * x * weight) ∧
      RunningSpentCalories action weight d1 = RunningSpentCalories action weight d2 := by
  have key : ∀ d : ℚ, d ≠ 0 → RunningSpentCalories action weight d =
      some (18 * 1.79 * 60 / 1000 * ((action : ℚ) * 0.65 / 1000) * weight) := by
    intro d hd
    rw [RunningSpentCalories_of_speed action weight d _ (meanSpeed_of_ne action hd)]
    congr 1
    field_simp
    ring
  exact ⟨_, distance_eq action, key d1 h1, key d2 h2, (key d1 h1).trans (key d2 h2).symm⟩

/-- Witness of C16: 1000 steps at 70 kg, half an hour against three hours. -/
theorem RunningSpentCalories_duration_cancels_witness :
    ∃ x, distance 1000 = some x ∧
      RunningSpentCalories 1000 70 0.5 = some (18 * 1.79 * 60 / 1000 * x * 70) ∧
      RunningSpentCalories 1000 70 3 = some (18 * 1.79 * 60 / 1000 * x * 70) ∧
      RunningSpentCalories 1000 70 0.5 = RunningSpentCalories 1000 70 3 :=
  RunningSpentCalories_duration_cancels 1000 70 0.5 3 (by norm_num) (by norm_num)

/-- C17: with a zero duration every calorie function returns 0, whatever its other arguments
(the height different from 0 for walking). -/
theorem spentCalories_zero_duration (action lengthPool countPool : ℤ) (weight height : ℚ)
    (hh : height ≠ 0) :
    RunningSpentCalories action weight 0 = some 0 ∧
      WalkingSpentCalories action 0 weight height = some 0 ∧
      SwimmingSpentCalories lengthPool countPool 0 weight = some 0 := by
  refine ⟨?_, ?_, ?_⟩
  · rw [RunningSpentCalories_of_speed action weight 0 0 (meanSpeed_zero action)]
    norm_num
  · rw [WalkingSpentCalories_of_speed action 0 weight height 0 hh (meanSpeed_zero action)]
    norm_num
  · rw [SwimmingSpentCalories_of_speed lengthPool countPool 0 weight 0
      (swimmingMeanSpeed_zero lengthPool countPool)]
    norm_num

/-- Witness of C17: 1000 steps, a 25 m pool swum 20 times, 70 kg, 175 cm. -/
theorem spentCalories_zero_duration_witness :
    RunningSpentCalories 1000 70 0 = some 0 ∧
      WalkingSpentCalories 1000 0 70 175 = some 0 ∧
      SwimmingSpentCalories 25 20 0 70 = some 0 :=
  spentCalories_zero_duration 1000 25 20 70 175 (by norm_num)

/-- C18: for a recognised training type and every value of the numeric arguments (every
`float64`, finite or not) the string returned by `ShowTrainingInfo` is not the sentinel
"неизвестный тип тренировки": it is the text "Тип тренировки: " followed by the training type
and the rest of the report.  So the result is the sentinel exactly when the type is none of
the three recognised ones. -/
theorem sentinel_unambiguous (action : ℤ) (trainingType : String)
    (duration weight height : F64) (lengthPool countPool : ℤ)
    (ht : trainingType = "Бег" ∨ trainingType = "Ходьба" ∨ trainingType = "Плавание") :
    Binary64.ShowTrainingInfo action trainingType duration weight height lengthPool
        countPool ≠ "неизвестный тип тренировки" ∧
      (∃ rest, Binary64.ShowTrainingInfo action trainingType duration weight height
        lengthPool countPool = "Тип тренировки: " ++ trainingType ++ rest) ∧
      (∀ t : String,
        Binary64.ShowTrainingInfo action t duration weight height lengthPool countPool =
            "неизвестный тип тренировки" ↔
          (t ≠ "Бег" ∧ t ≠ "Ходьба" ∧ t ≠ "Плавание")) := by
  have hne : ∀ (t : String) (d x s k : F64),
      Binary64.Sprintf resultMessage [.str t, .float d, .float x, .float s, .float k] ≠
        "неизвестный тип тренировки" := by
    intro t d x s k h
    have h2 := congrArg String.data h
    simp [Binary64.Sprintf, resultMessage, Binary64.sprintfChars] at h2
  have hpre : ∀ (t : String) (d x s k : F64), ∃ rest,
      Binary64.Sprintf resultMessage [.str t, .float d, .float x, .float s, .float k] =
        "Тип тренировки: " ++ t ++ rest := by
    intro t d x s k
    refine ⟨"\n        Длительность: " ++ (d.format2 ++ (" ч.\n        Дистанция: " ++
      (x.format2 ++ (" км.\n        Скорость: " ++ (s.format2 ++
      (" км/ч.\n        Потрачено энергии: " ++ (k.format2 ++ " ккал.\n        "))))))), ?_⟩
    rw [binary64_Sprintf_resultMessage]
    simp only [String.append_assoc]
  have hshape : ∀ t : String, (t = "Бег" ∨ t = "Ходьба" ∨ t = "Плавание") →
      ∃ x s k, Binary64.ShowTrainingInfo action t duration weight height lengthPool
        countPool = Binary64.Sprintf resultMessage
          [.str t, .float duration, .float x, .float s, .float k] := by
    intro t h
    rcases h with rfl | rfl | rfl
    · exact ⟨_, _, _, binary64_ShowTrainingInfo_running action duration weight height
        lengthPool countPool⟩
    · exact ⟨_, _, _, binary64_ShowTrainingInfo_walking action duration weight height
        lengthPool countPool⟩
    · exact ⟨_, _, _, binary64_ShowTrainingInfo_swimming action duration weight height
        lengthPool countPool⟩
  have key : ∀ t : String, (t = "Бег" ∨ t = "Ходьба" ∨ t = "Плавание") →
      Binary64.ShowTrainingInfo action t duration weight height lengthPool countPool ≠
        "неизвестный тип тренировки" := by
    intro t h
    obtain ⟨x, s, k, hsome⟩ := hshape t h
    rw [hsome]
    exact hne t duration x s k
  refine ⟨key trainingType ht, ?_, ?_⟩
  · obtain ⟨x, s, k, hsome⟩ := hshape trainingType ht
    obtain ⟨rest, hrest⟩ := hpre trainingType duration x s k
    exact ⟨rest, by rw [hsome, hrest]⟩
  · intro t
    constructor
    · intro h
      exact ⟨fun e => key t (Or.inl e) h, fun e => key t (Or.inr (Or.inl e)) h,
        fun e => key t (Or.inr (Or.inr e)) h⟩
    · rintro ⟨h1, h2, h3⟩
      exact binary64_ShowTrainingInfo_unknown action t duration weight height lengthPool
        countPool h1 h2 h3

/-- Witness of C18 at walking with a height of 0, where the calories are not finite. -/
theorem sentinel_unambiguous_witness :
    Binary64.ShowTrainingInfo 1000 "Ходьба" (F64.ofRat 1) (F64.ofRat 70) (F64.ofRat 0) 0 0 ≠
        "неизвестный тип тренировки" ∧
      (∃ rest, Binary64.ShowTrainingInfo 1000 "Ходьба" (F64.ofRat 1) (F64.ofRat 70)
        (F64.ofRat 0) 0 0 = "Тип тренировки: " ++ "Ходьба" ++ rest) ∧
      (∀ t : String,
        Binary64.ShowTrainingInfo 1000 t (F64.ofRat 1) (F64.ofRat 70) (F64.ofRat 0) 0 0 =
            "неизвестный тип тренировки" ↔
          (t ≠ "Бег" ∧ t ≠ "Ходьба" ∧ t ≠ "Плавание")) :=
  sentinel_unambiguous 1000 "Ходьба" (F64.ofRat 1) (F64.ofRat 70) (F64.ofRat 0) 0 0
    (Or.inr (Or.inl rfl))

end Ftracker
